import Mathlib

/-!
Verification development for the DOCUMENTS-BOT repository.

The repository resolves a free-form identifier (direct URL, past-paper
query, or book title) to a PDF download, trying external sources in a
fixed fallback order, and dispatches batches over a bounded worker pool.

Shallow embedding conventions:
  - Every external interaction (HTTP GET plus the parse of its payload)
    is an oracle field of the `Env` structure, returning
    `Except String X`: `Except.error e` models the call raising an
    exception whose text is `e` (Python `str(e)`), `Except.ok` models a
    normal return carrying exactly the data the code observes.
  - Each embedded function returns its value paired with the ordered
    list of network `Call`s it performed, so that claims about calls
    never made are statable.
  - Python dict results become the `Result` structure; absent keys are
    the field defaults (`none` / `[]`).
  - String primitives (`strip`, `lower`, `startswith`, `endswith`,
    `in`, `replace`, `split`) are re-implemented structurally over
    `List Char` so every theorem and witness reduces in the kernel.
  - `print` logging is not modelled; imports and `os.makedirs` are
    assumed to succeed (they are outside all claims).
-/

set_option autoImplicit false

/-- Python whitespace class for `str.strip` and the regex class of a
whitespace character: space, tab, newline, carriage return, vertical
tab, form feed (ASCII range, which is what the inputs use). -/
def isSpaceC (c : Char) : Bool :=
  c = ' ' || c = '\t' || c = '\n' || c = '\r' || c = '\x0b' || c = '\x0c'

/-- Check that the first list is an initial segment of the second. -/
def listIsPre : List Char → List Char → Bool
  | [], _ => true
  | _ :: _, [] => false
  | a :: as, b :: bs => a = b && listIsPre as bs

/-- Substring occurrence over character lists (Python `sub in s`). -/
def listContainsSub (sub : List Char) : List Char → Bool
  | [] => listIsPre sub []
  | c :: rest => listIsPre sub (c :: rest) || listContainsSub sub rest

/-- Python `sub in s` on strings. -/
def containsSub (s sub : String) : Bool :=
  listContainsSub sub.data s.data

/-- Python `s.startswith(p)`. -/
def strStartsWith (s p : String) : Bool :=
  listIsPre p.data s.data

/-- Python `s.endswith(p)`. -/
def strEndsWith (s p : String) : Bool :=
  listIsPre p.data.reverse s.data.reverse

/-- Python `s.lower()` (ASCII case folding, as used on these inputs). -/
def strLower (s : String) : String :=
  String.mk (s.data.map Char.toLower)

def dropLeadingWs : List Char → List Char
  | [] => []
  | c :: rest => if isSpaceC c then dropLeadingWs rest else c :: rest

/-- Python `s.strip()`. -/
def strTrim (s : String) : String :=
  String.mk ((dropLeadingWs (dropLeadingWs s.data).reverse).reverse)

/-- Python `s.replace(' ', '+')`, the only `replace` the code uses. -/
def plusJoin (s : String) : String :=
  String.mk (s.data.map (fun c => if c = ' ' then '+' else c))

def takeUntilSlashRev : List Char → List Char
  | [] => []
  | c :: rest => if c = '/' then [] else c :: takeUntilSlashRev rest

/-- Python `url.split("/")[-1]`: the segment after the last slash. -/
def lastSegment (s : String) : String :=
  String.mk (takeUntilSlashRev s.data.reverse).reverse

/-- Python `re.sub(r'[^\w\s-]', '', title)`: keep word characters,
whitespace and hyphens (ASCII). -/
def sanitizeTitle (t : String) : String :=
  String.mk (t.data.filter (fun c => c.isAlphanum || c = '_' || isSpaceC c || c = '-'))

/-- Match exactly three digits at the head (regex fragment of three
digit characters), returning the matched characters. -/
def matchD3 : List Char → Option (List Char)
  | a :: b :: c :: _ => if a.isDigit && b.isDigit && c.isDigit then some [a, b, c] else none
  | _ => none

/-- Match the optional-whitespace-then-three-digits tail of the course
code pattern, with the greedy backtracking order of the regex engine. -/
def matchTail : List Char → Option (List Char)
  | [] => none
  | c :: rest =>
    if isSpaceC c then
      match matchD3 rest with
      | some ds => some (c :: ds)
      | none => none
    else matchD3 (c :: rest)

/-- Take exactly `n` letters from the head of the list. -/
def takeLetters : Nat → List Char → Option (List Char × List Char)
  | 0, rest => some ([], rest)
  | _ + 1, [] => none
  | n + 1, c :: rest =>
    if c.isAlpha then
      match takeLetters n rest with
      | some (ls, r) => some (c :: ls, r)
      | none => none
    else none

/-- Try the course-code pattern at this position with a fixed letter
count `n`. -/
def courseAt (n : Nat) (cs : List Char) : Option String :=
  match takeLetters n cs with
  | none => none
  | some (ls, rest) =>
    match matchTail rest with
    | none => none
    | some tl => some (String.mk (ls ++ tl))

/-- Try the course-code pattern anchored at this position, letters
greedy from four down to two. -/
def matchCourseAt (cs : List Char) : Option String :=
  match courseAt 4 cs with
  | some s => some s
  | none =>
    match courseAt 3 cs with
    | some s => some s
    | none => courseAt 2 cs

/-- Leftmost course-code match (Python `re.search` scan order). -/
def searchCourse : List Char → Option String
  | [] => none
  | c :: rest =>
    match matchCourseAt (c :: rest) with
    | some s => some s
    | none => searchCourse rest

/-- Leftmost match of the year pattern: literal 2, literal 0, then two
digit characters. -/
def searchYear : List Char → Option String
  | c1 :: c2 :: c3 :: c4 :: rest =>
    if c1 = '2' && c2 = '0' && c3.isDigit && c4.isDigit then
      some (String.mk [c1, c2, c3, c4])
    else searchYear (c2 :: c3 :: c4 :: rest)
  | _ => none

/-- A network request performed by the program, tagged by which
external endpoint it hits and with the exact URL or query used. -/
inductive Call where
  | directDownload (url : String)
  | pdfdriveSearch (url : String)
  | pdfdriveBook (url : String)
  | archiveSearch (url : String)
  | googleSearch (query : String)
  | download (url : String)
  | coverLookup (url : String)
  | coverImage (url : String)
  | mzuniSearch (url : String)
  | mzuniDownload (url : String)
deriving DecidableEq, Repr

def isArchiveSearchCall : Call → Bool
  | .archiveSearch _ => true
  | _ => false

def isGoogleSearchCall : Call → Bool
  | .googleSearch _ => true
  | _ => false

def isPdfdriveSearchCall : Call → Bool
  | .pdfdriveSearch _ => true
  | _ => false

/-- The trace contains neither an archive search nor a google search. -/
def noArchiveOrGoogle (t : List Call) : Bool :=
  t.all (fun c => !isArchiveSearchCall c && !isGoogleSearchCall c)

/-- The trace contains no google search. -/
def noGoogle (t : List Call) : Bool :=
  t.all (fun c => !isGoogleSearchCall c)

/-- The anchor tag the PDFDrive search-page scrape observes:
`soup.find('a', class_='ai-search')` yields at most one tag, whose
`href` attribute may be absent (access then raises, caught locally)
and whose `title` attribute may be absent (`get` with default). -/
structure Anchor where
  href : Option String
  title : Option String
deriving DecidableEq, Repr

/-- The per-identifier outcome dictionary. Keys absent from a given
Python dict are the defaults (`none` / `[]`). -/
structure Result where
  status : String
  message : String
  file_path : Option String := none
  cover : Option String := none
  alternatives : List String := []
  resources : List String := []
  tips : List String := []
  url : Option String := none
  source : Option String := none
  book : Option String := none
deriving DecidableEq, Repr

/-- Oracle for the external world. Each field models one external
interaction site of the source: the HTTP GET together with the parse
the code applies to its payload, collapsed to the data the code
observes. `Except.error e` models the call raising an exception with
text `e`.
  - `get_pdfdrive_search`: GET of the PDFDrive search page plus
    `soup.find('a', class_='ai-search')` (`none`: no such tag).
  - `get_pdfdrive_book`: GET of the PDFDrive book page plus the
    `data-preview="...pdf"` regex match (`none`: no match).
  - `get_archive`: GET of the Archive.org advanced search plus
    `res.json()...['docs']`, kept as each doc's optional
    `identifier` field.
  - `get_google`: the `googlesearch.search(query, num_results=5)`
    iteration, as the list of URLs it yields.
  - `get_download`: the streamed PDF GET plus the file write.
  - `get_books_api`: the Google Books volumes lookup plus the
    extraction of the first item's thumbnail URL (`none`: no items;
    `error` also covers the key lookups raising).
  - `get_image`: the thumbnail GET plus decode and save.
  - `get_mzuni_page`: GET of the MZUNI OPAC results page plus
    `soup.find_all('a', href=True)`, kept as the href strings.
  - `get_mzuni_pdf`: the past-paper PDF GET plus the file write.
  - `get_direct`: the direct-URL PDF GET plus the file write. -/
structure Env where
  get_pdfdrive_search : String → Except String (Option Anchor)
  get_pdfdrive_book : String → Except String (Option String)
  get_archive : String → Except String (List (Option String))
  get_google : String → Except String (List String)
  get_download : String → Except String Unit
  get_books_api : String → Except String (Option String)
  get_image : String → Except String Unit
  get_mzuni_page : String → Except String (List String)
  get_mzuni_pdf : String → Except String Unit
  get_direct : String → Except String Unit

/-- `DOWNLOAD_DIR` constant of all three files. -/
def DOWNLOAD_DIR : String := "downloads"

/-- `MAX_CONCURRENT_DOWNLOADS` constant of Downloader.py line 12. -/
def MAX_CONCURRENT_DOWNLOADS : Nat := 10

/-- PDFDrive search URL f-string (Downloader.py line 67). -/
def pdfdriveSearchUrl (n : String) : String :=
  "https://www.pdfdrive.com/search?q=" ++ plusJoin n

/-- Archive.org advanced search URL f-string (Downloader.py line 95). -/
def archiveSearchUrl (n : String) : String :=
  "https://archive.org/advancedsearch.php?q=title%3A(" ++ plusJoin n ++ ")&output=json"

/-- Google query f-string (Downloader.py line 111). -/
def googleQuery (n : String) : String :=
  n ++ " filetype:pdf"

/-- Google Books volumes URL f-string (Downloader.py line 144). -/
def booksApiUrl (t : String) : String :=
  "https://www.googleapis.com/books/v1/volumes?q=" ++ t

/-- MZUNI OPAC search URL f-string (Downloader.py line 190). -/
def mzuniSearchUrl (q : String) : String :=
  "https://opac.mzuni.ac.mw/cgi-bin/koha/opac-search.pl?q=" ++ plusJoin q

/-- `re.sub(r'\.pdf$', '', book_name, flags=re.IGNORECASE).strip()`
(Downloader.py line 39). -/
def cleanName (book_name : String) : String :=
  strTrim (if strEndsWith (strLower book_name) ".pdf"
           then String.mk (book_name.data.take (book_name.data.length - 4))
           else book_name)

/-- First doc carrying an `identifier` field: the loop of
Downloader.py lines 99-102. -/
def firstIdentifier : List (Option String) → Option String
  | [] => none
  | some i :: _ => some i
  | none :: rest => firstIdentifier rest

/-- First search hit ending in `.pdf` (case-sensitive, as in
Downloader.py line 113). -/
def firstPdfUrl : List String → Option String
  | [] => none
  | u :: rest => if strEndsWith u ".pdf" then some u else firstPdfUrl rest

/-- The filter and absolutisation of hrefs on the OPAC results page
(Downloader.py lines 200-205): lowercase the href, keep it when it
ends in `.pdf` or contains `download`, and prepend the OPAC host
unless it already starts with `http`. Note the code reuses the
lowercased href for the full URL. -/
def mzuniLinks : List String → List String
  | [] => []
  | href :: rest =>
    let h := strLower href
    if strEndsWith h ".pdf" || containsSub h "download" then
      (if strStartsWith h "http" then h else "https://opac.mzuni.ac.mw" ++ h) :: mzuniLinks rest
    else
      mzuniLinks rest

namespace Downloader

/-- `_extract_course_code` (Downloader.py lines 230-233):
`re.search(r'([A-Za-z]{2,4}\s?\d{3})', text)`. -/
def _extract_course_code (text : String) : Option String :=
  searchCourse text.data

/-- `_extract_year` (Downloader.py lines 235-238):
`re.search(r'(20\d{2})', text)`. -/
def _extract_year (text : String) : Option String :=
  searchYear text.data

/-- `_download_cover_image` (Downloader.py lines 142-156). Returns the
optional cover path; any failure is swallowed and yields `none`. -/
def _download_cover_image (env : Env) (book_name : String) : Option String × List Call :=
  let u := booksApiUrl book_name
  match env.get_books_api u with
  | .error _ => (none, [.coverLookup u])
  | .ok none => (none, [.coverLookup u])
  | .ok (some image_url) =>
    match env.get_image image_url with
    | .error _ => (none, [.coverLookup u, .coverImage image_url])
    | .ok _ =>
      (some (DOWNLOAD_DIR ++ "/" ++ book_name ++ "_cover.jpg"),
       [.coverLookup u, .coverImage image_url])

/-- `_download_pdf_and_cover` (Downloader.py lines 119-140). -/
def _download_pdf_and_cover (env : Env) (url title : String) : Result × List Call :=
  let file_path := DOWNLOAD_DIR ++ "/" ++ sanitizeTitle title ++ ".pdf"
  match env.get_download url with
  | .error e => ({ status := "error", message := e }, [.download url])
  | .ok _ =>
    let c := _download_cover_image env title
    ({ status := "success",
       message := "Downloaded \x27" ++ title ++ "\x27",
       file_path := some file_path,
       cover := c.1 },
     .download url :: c.2)

/-- `_extract_pdfdrive_pdf` (Downloader.py lines 83-91). -/
def _extract_pdfdrive_pdf (env : Env) (book_url : String) : Option String × List Call :=
  match env.get_pdfdrive_book book_url with
  | .error _ => (none, [.pdfdriveBook book_url])
  | .ok m => (m, [.pdfdriveBook book_url])

/-- `_try_pdfdrive_search` (Downloader.py lines 65-81). A missing
`href` attribute raises inside the `try` and is caught, yielding
`none`; the `title` attribute defaults to the book name. -/
def _try_pdfdrive_search (env : Env) (book_name : String) : Option Result × List Call :=
  let search_url := pdfdriveSearchUrl book_name
  match env.get_pdfdrive_search search_url with
  | .error _ => (none, [.pdfdriveSearch search_url])
  | .ok none => (none, [.pdfdriveSearch search_url])
  | .ok (some a) =>
    match a.href with
    | none => (none, [.pdfdriveSearch search_url])
    | some h =>
      let book_url := "https://www.pdfdrive.com" ++ h
      let title := a.title.getD book_name
      let e := _extract_pdfdrive_pdf env book_url
      match e.1 with
      | none => (none, .pdfdriveSearch search_url :: e.2)
      | some pdf_url =>
        let d := _download_pdf_and_cover env pdf_url title
        (some d.1, .pdfdriveSearch search_url :: e.2 ++ d.2)

/-- `_try_archive_search` (Downloader.py lines 93-105). -/
def _try_archive_search (env : Env) (book_name : String) : Option Result × List Call :=
  let search_url := archiveSearchUrl book_name
  match env.get_archive search_url with
  | .error _ => (none, [.archiveSearch search_url])
  | .ok docs =>
    match firstIdentifier docs with
    | none => (none, [.archiveSearch search_url])
    | some ident =>
      let item_url := "https://archive.org/download/" ++ ident ++ "/" ++ ident ++ ".pdf"
      let d := _download_pdf_and_cover env item_url book_name
      (some d.1, .archiveSearch search_url :: d.2)

/-- `_try_google_pdf_search` (Downloader.py lines 107-117). The
`googlesearch` import is assumed available. -/
def _try_google_pdf_search (env : Env) (book_name : String) : Option Result × List Call :=
  let query := googleQuery book_name
  match env.get_google query with
  | .error _ => (none, [.googleSearch query])
  | .ok urls =>
    match firstPdfUrl urls with
    | none => (none, [.googleSearch query])
    | some u =>
      let d := _download_pdf_and_cover env u book_name
      (some d.1, .googleSearch query :: d.2)

/-- `_download_by_book_name` (Downloader.py lines 38-63). -/
def _download_by_book_name (env : Env) (book_name : String) : Result × List Call :=
  let clean_name := cleanName book_name
  let s1 := _try_pdfdrive_search env clean_name
  match s1.1 with
  | some r => (r, s1.2)
  | none =>
    let s2 := _try_archive_search env clean_name
    match s2.1 with
    | some r => (r, s1.2 ++ s2.2)
    | none =>
      let s3 := _try_google_pdf_search env clean_name
      match s3.1 with
      | some r => (r, s1.2 ++ s2.2 ++ s3.2)
      | none =>
        ({ status := "error",
           message := "Could not find PDF for \x27" ++ clean_name ++ "\x27",
           alternatives :=
             ["https://www.pdfdrive.com/search?q=" ++ plusJoin clean_name,
              "https://archive.org/search.php?query=" ++ plusJoin clean_name] },
         s1.2 ++ s2.2 ++ s3.2)

/-- `_download_direct_url` (Downloader.py lines 25-36). -/
def _download_direct_url (env : Env) (url : String) : Result × List Call :=
  if !strEndsWith (strLower url) ".pdf" then
    ({ status := "error", message := "URL doesn\x27t point to a PDF file" }, [])
  else
    let filename := DOWNLOAD_DIR ++ "/" ++ lastSegment url
    match env.get_direct url with
    | .error e => ({ status := "error", message := e }, [.directDownload url])
    | .ok _ =>
      ({ status := "success", message := "Downloaded PDF from URL",
         file_path := some filename },
       [.directDownload url])

/-- `_try_mzuni_opac_search` (Downloader.py lines 187-228). Any
exception inside, including a failing candidate download, is caught
and yields `none`. -/
def _try_mzuni_opac_search (env : Env) (query : String)
    (course_code year : Option String) : Option Result × List Call :=
  let search_url := mzuniSearchUrl query
  match env.get_mzuni_page search_url with
  | .error _ => (none, [.mzuniSearch search_url])
  | .ok hrefs =>
    match mzuniLinks hrefs with
    | [] => (none, [.mzuniSearch search_url])
    | pdf_url :: _ =>
      let filename :=
        if course_code.isSome || year.isSome then
          course_code.getD "paper" ++ "_" ++ year.getD "unknown" ++ ".pdf"
        else "past_paper.pdf"
      let file_path := DOWNLOAD_DIR ++ "/" ++ filename
      match env.get_mzuni_pdf pdf_url with
      | .error _ => (none, [.mzuniSearch search_url, .mzuniDownload pdf_url])
      | .ok _ =>
        (some { status := "success",
                message := "Downloaded past paper: " ++ query,
                file_path := some file_path,
                source := some "MZUNI Library" },
         [.mzuniSearch search_url, .mzuniDownload pdf_url])

/-- The informational fallback dictionary of Downloader.py lines
170-182, returned when the OPAC lookup yields nothing usable. -/
def pastPaperInfoResult (identifier : String) : Result :=
  { status := "info",
    message := "No direct download found. Try these resources:",
    resources :=
      [mzuniSearchUrl identifier,
       "https://www.academia.edu/",
       "https://www.researchgate.net/"],
    tips :=
      ["Try searching with exact course code and year (e.g. \x27CS 101 2020\x27)",
       "Some resources may require institutional login"] }

/-- `_try_past_paper_download` (Downloader.py lines 158-185). The
outer `except` branch (lines 184-185) is unreachable for string
inputs since every callee catches its own exceptions. -/
def _try_past_paper_download (env : Env) (identifier : String) : Result × List Call :=
  let course_code := _extract_course_code identifier
  let year := _extract_year identifier
  let m := _try_mzuni_opac_search env identifier course_code year
  match m.1 with
  | some r => if r.status = "success" then (r, m.2) else (pastPaperInfoResult identifier, m.2)
  | none => (pastPaperInfoResult identifier, m.2)

/-- `download_pdf` (Downloader.py lines 14-23). -/
def download_pdf (env : Env) (identifier : String) : Result × List Call :=
  let s := strTrim identifier
  if strStartsWith (strLower s) "http" then
    _download_direct_url env s
  else if containsSub (strLower s) "past paper" || containsSub (strLower s) "exam paper" then
    _try_past_paper_download env s
  else
    _download_by_book_name env s

/-- `handle_multiple_downloads` (Downloader.py lines 241-252), as a
function of the completion order of the submitted units (the
`as_completed` iteration order, an arbitrary permutation of the
submitted list). The `except` branch at the dispatch boundary (lines
250-251), which would tag an error Result with the originating
identifier under key `book`, is unreachable for string inputs because
`download_pdf` is total (see the C6 theorem below), so a completed
unit always contributes `download_pdf` of its identifier. -/
def handle_multiple_downloads (env : Env) (completed : List String) : List Result :=
  completed.map (fun b => (download_pdf env b).1)

end Downloader

namespace Pdf

/-- `_download_cover_image` (Pdf.py lines 142-156). -/
def _download_cover_image (env : Env) (book_name : String) : Option String × List Call :=
  let u := booksApiUrl book_name
  match env.get_books_api u with
  | .error _ => (none, [.coverLookup u])
  | .ok none => (none, [.coverLookup u])
  | .ok (some image_url) =>
    match env.get_image image_url with
    | .error _ => (none, [.coverLookup u, .coverImage image_url])
    | .ok _ =>
      (some (DOWNLOAD_DIR ++ "/" ++ book_name ++ "_cover.jpg"),
       [.coverLookup u, .coverImage image_url])

/-- `_download_pdf_and_cover` (Pdf.py lines 119-140). -/
def _download_pdf_and_cover (env : Env) (url title : String) : Result × List Call :=
  let file_path := DOWNLOAD_DIR ++ "/" ++ sanitizeTitle title ++ ".pdf"
  match env.get_download url with
  | .error e => ({ status := "error", message := e }, [.download url])
  | .ok _ =>
    let c := _download_cover_image env title
    ({ status := "success",
       message := "Downloaded \x27" ++ title ++ "\x27",
       file_path := some file_path,
       cover := c.1 },
     .download url :: c.2)

/-- `_extract_pdfdrive_pdf` (Pdf.py lines 83-91). -/
def _extract_pdfdrive_pdf (env : Env) (book_url : String) : Option String × List Call :=
  match env.get_pdfdrive_book book_url with
  | .error _ => (none, [.pdfdriveBook book_url])
  | .ok m => (m, [.pdfdriveBook book_url])

/-- `_try_pdfdrive_search` (Pdf.py lines 65-81). -/
def _try_pdfdrive_search (env : Env) (book_name : String) : Option Result × List Call :=
  let search_url := pdfdriveSearchUrl book_name
  match env.get_pdfdrive_search search_url with
  | .error _ => (none, [.pdfdriveSearch search_url])
  | .ok none => (none, [.pdfdriveSearch search_url])
  | .ok (some a) =>
    match a.href with
    | none => (none, [.pdfdriveSearch search_url])
    | some h =>
      let book_url := "https://www.pdfdrive.com" ++ h
      let title := a.title.getD book_name
      let e := _extract_pdfdrive_pdf env book_url
      match e.1 with
      | none => (none, .pdfdriveSearch search_url :: e.2)
      | some pdf_url =>
        let d := _download_pdf_and_cover env pdf_url title
        (some d.1, .pdfdriveSearch search_url :: e.2 ++ d.2)

/-- `_try_archive_search` (Pdf.py lines 93-105). -/
def _try_archive_search (env : Env) (book_name : String) : Option Result × List Call :=
  let search_url := archiveSearchUrl book_name
  match env.get_archive search_url with
  | .error _ => (none, [.archiveSearch search_url])
  | .ok docs =>
    match firstIdentifier docs with
    | none => (none, [.archiveSearch search_url])
    | some ident =>
      let item_url := "https://archive.org/download/" ++ ident ++ "/" ++ ident ++ ".pdf"
      let d := _download_pdf_and_cover env item_url book_name
      (some d.1, .archiveSearch search_url :: d.2)

/-- `_try_google_pdf_search` (Pdf.py lines 107-117). -/
def _try_google_pdf_search (env : Env) (book_name : String) : Option Result × List Call :=
  let query := googleQuery book_name
  match env.get_google query with
  | .error _ => (none, [.googleSearch query])
  | .ok urls =>
    match firstPdfUrl urls with
    | none => (none, [.googleSearch query])
    | some u =>
      let d := _download_pdf_and_cover env u book_name
      (some d.1, .googleSearch query :: d.2)

/-- `_download_by_book_name` (Pdf.py lines 38-63). -/
def _download_by_book_name (env : Env) (book_name : String) : Result × List Call :=
  let clean_name := cleanName book_name
  let s1 := _try_pdfdrive_search env clean_name
  match s1.1 with
  | some r => (r, s1.2)
  | none =>
    let s2 := _try_archive_search env clean_name
    match s2.1 with
    | some r => (r, s1.2 ++ s2.2)
    | none =>
      let s3 := _try_google_pdf_search env clean_name
      match s3.1 with
      | some r => (r, s1.2 ++ s2.2 ++ s3.2)
      | none =>
        ({ status := "error",
           message := "Could not find PDF for \x27" ++ clean_name ++ "\x27",
           alternatives :=
             ["https://www.pdfdrive.com/search?q=" ++ plusJoin clean_name,
              "https://archive.org/search.php?query=" ++ plusJoin clean_name] },
         s1.2 ++ s2.2 ++ s3.2)

end Pdf

namespace Example

/-- `_download_cover_image` (Example.py lines 137-151). -/
def _download_cover_image (env : Env) (book_name : String) : Option String × List Call :=
  let u := booksApiUrl book_name
  match env.get_books_api u with
  | .error _ => (none, [.coverLookup u])
  | .ok none => (none, [.coverLookup u])
  | .ok (some image_url) =>
    match env.get_image image_url with
    | .error _ => (none, [.coverLookup u, .coverImage image_url])
    | .ok _ =>
      (some (DOWNLOAD_DIR ++ "/" ++ book_name ++ "_cover.jpg"),
       [.coverLookup u, .coverImage image_url])

/-- `_download_pdf_and_cover` (Example.py lines 115-135). -/
def _download_pdf_and_cover (env : Env) (url title : String) : Result × List Call :=
  let file_path := DOWNLOAD_DIR ++ "/" ++ sanitizeTitle title ++ ".pdf"
  match env.get_download url with
  | .error e => ({ status := "error", message := e }, [.download url])
  | .ok _ =>
    let c := _download_cover_image env title
    ({ status := "success",
       message := "Downloaded \x27" ++ title ++ "\x27",
       file_path := some file_path,
       cover := c.1 },
     .download url :: c.2)

/-- `_extract_pdfdrive_pdf` (Example.py lines 79-87). -/
def _extract_pdfdrive_pdf (env : Env) (book_url : String) : Option String × List Call :=
  match env.get_pdfdrive_book book_url with
  | .error _ => (none, [.pdfdriveBook book_url])
  | .ok m => (m, [.pdfdriveBook book_url])

/-- `_try_pdfdrive_search` (Example.py lines 61-77). -/
def _try_pdfdrive_search (env : Env) (book_name : String) : Option Result × List Call :=
  let search_url := pdfdriveSearchUrl book_name
  match env.get_pdfdrive_search search_url with
  | .error _ => (none, [.pdfdriveSearch search_url])
  | .ok none => (none, [.pdfdriveSearch search_url])
  | .ok (some a) =>
    match a.href with
    | none => (none, [.pdfdriveSearch search_url])
    | some h =>
      let book_url := "https://www.pdfdrive.com" ++ h
      let title := a.title.getD book_name
      let e := _extract_pdfdrive_pdf env book_url
      match e.1 with
      | none => (none, .pdfdriveSearch search_url :: e.2)
      | some pdf_url =>
        let d := _download_pdf_and_cover env pdf_url title
        (some d.1, .pdfdriveSearch search_url :: e.2 ++ d.2)

/-- `_try_archive_search` (Example.py lines 89-101). -/
def _try_archive_search (env : Env) (book_name : String) : Option Result × List Call :=
  let search_url := archiveSearchUrl book_name
  match env.get_archive search_url with
  | .error _ => (none, [.archiveSearch search_url])
  | .ok docs =>
    match firstIdentifier docs with
    | none => (none, [.archiveSearch search_url])
    | some ident =>
      let item_url := "https://archive.org/download/" ++ ident ++ "/" ++ ident ++ ".pdf"
      let d := _download_pdf_and_cover env item_url book_name
      (some d.1, .archiveSearch search_url :: d.2)

/-- `_try_google_pdf_search` (Example.py lines 103-113). -/
def _try_google_pdf_search (env : Env) (book_name : String) : Option Result × List Call :=
  let query := googleQuery book_name
  match env.get_google query with
  | .error _ => (none, [.googleSearch query])
  | .ok urls =>
    match firstPdfUrl urls with
    | none => (none, [.googleSearch query])
    | some u =>
      let d := _download_pdf_and_cover env u book_name
      (some d.1, .googleSearch query :: d.2)

/-- `_download_by_book_name` (Example.py lines 33-59). -/
def _download_by_book_name (env : Env) (book_name : String) : Result × List Call :=
  let clean_name := cleanName book_name
  let s1 := _try_pdfdrive_search env clean_name
  match s1.1 with
  | some r => (r, s1.2)
  | none =>
    let s2 := _try_archive_search env clean_name
    match s2.1 with
    | some r => (r, s1.2 ++ s2.2)
    | none =>
      let s3 := _try_google_pdf_search env clean_name
      match s3.1 with
      | some r => (r, s1.2 ++ s2.2 ++ s3.2)
      | none =>
        ({ status := "error",
           message := "Could not find PDF for \x27" ++ clean_name ++ "\x27",
           alternatives :=
             ["https://www.pdfdrive.com/search?q=" ++ plusJoin clean_name,
              "https://archive.org/search.php?query=" ++ plusJoin clean_name] },
         s1.2 ++ s2.2 ++ s3.2)

end Example

/-- Modelled from the spec: the bounded worker pool behind
`handle_multiple_downloads`. The pool implementation
(`ThreadPoolExecutor`) is library code absent from the repository
sources; the spec describes it as a fixed-size worker pool with
bounded concurrency (default cap of ten simultaneous units), one unit
of work per identifier. A state holds the identifiers not yet
started, the identifiers currently running, and the Results of
completed units. -/
structure PoolState where
  pending : List String
  running : List String
  done : List Result
deriving DecidableEq, Repr

/-- Modelled from the spec: one scheduler transition of the worker
pool. A pending unit may start only while fewer than `cap` units are
running; a running unit may finish at any time, appending its
`download_pdf` Result to the completed collection. -/
inductive PoolStep (env : Env) (cap : Nat) : PoolState → PoolState → Prop
  | start (b : String) (pending running : List String) (done : List Result) :
      running.length < cap →
      PoolStep env cap ⟨b :: pending, running, done⟩ ⟨pending, b :: running, done⟩
  | finish (b : String) (pending running : List String) (done : List Result) :
      b ∈ running →
      PoolStep env cap ⟨pending, running, done⟩
        ⟨pending, running.erase b, (Downloader.download_pdf env b).1 :: done⟩

/-- A pool state reachable from dispatching `books`: the reflexive
transitive closure of scheduler transitions from the initial state in
which every identifier is pending. -/
def PoolReachable (env : Env) (cap : Nat) (books : List String) (s : PoolState) : Prop :=
  Relation.ReflTransGen (PoolStep env cap) ⟨books, [], []⟩ s

/-- Oracle in which every external call raises (e.g. the machine is
offline). -/
def envAllFail : Env where
  get_pdfdrive_search := fun _ => .error "offline"
  get_pdfdrive_book := fun _ => .error "offline"
  get_archive := fun _ => .error "offline"
  get_google := fun _ => .error "offline"
  get_download := fun _ => .error "offline"
  get_books_api := fun _ => .error "offline"
  get_image := fun _ => .error "offline"
  get_mzuni_page := fun _ => .error "offline"
  get_mzuni_pdf := fun _ => .error "offline"
  get_direct := fun _ => .error "offline"

/-- Oracle in which only the direct PDF GET succeeds. -/
def envOkDirect : Env :=
  { envAllFail with get_direct := fun _ => .ok () }

/-- Oracle in which the PDFDrive search resolves to a book page whose
preview regex yields a PDF URL, but the PDF download itself raises. -/
def envDlFail : Env :=
  { envAllFail with
    get_pdfdrive_search := fun _ => .ok (some { href := some "/b", title := some "T" }),
    get_pdfdrive_book := fun _ => .ok (some "http://x/f.pdf"),
    get_download := fun _ => .error "boom" }

/-- The Result produced by a successful direct-URL download of a URL
whose last path segment is `book.pdf`. -/
def rDirect : Result :=
  { status := "success", message := "Downloaded PDF from URL",
    file_path := some "downloads/book.pdf" }

/-- The list of per-identifier resolutions of a book list, in the
order of that list. -/
def resultsFor (env : Env) (books : List String) : List Result :=
  books.map (fun b => (Downloader.download_pdf env b).1)

theorem noArchiveOrGoogle_append (a b : List Call) :
    noArchiveOrGoogle (a ++ b) = (noArchiveOrGoogle a && noArchiveOrGoogle b) := by
  simp [noArchiveOrGoogle, List.all_append]

theorem noGoogle_append (a b : List Call) :
    noGoogle (a ++ b) = (noGoogle a && noGoogle b) := by
  simp [noGoogle, List.all_append]

theorem noGoogle_of_noArchiveOrGoogle (t : List Call) (h : noArchiveOrGoogle t = true) :
    noGoogle t = true := by
  simp only [noArchiveOrGoogle, List.all_eq_true, Bool.and_eq_true] at h
  simp only [noGoogle, List.all_eq_true]
  intro c hc
  exact (h c hc).2

theorem extract_trace (env : Env) (u : String) :
    (Downloader._extract_pdfdrive_pdf env u).2 = [Call.pdfdriveBook u] := by
  unfold Downloader._extract_pdfdrive_pdf
  split <;> rfl

theorem cover_noAG (env : Env) (t : String) :
    noArchiveOrGoogle (Downloader._download_cover_image env t).2 = true := by
  simp only [Downloader._download_cover_image]
  split
  · rfl
  · rfl
  · split <;> rfl

theorem dpc_noAG (env : Env) (u t : String) :
    noArchiveOrGoogle (Downloader._download_pdf_and_cover env u t).2 = true := by
  simp only [Downloader._download_pdf_and_cover]
  split
  · rfl
  · have h := cover_noAG env t
    simp [noArchiveOrGoogle, isArchiveSearchCall, isGoogleSearchCall] at h ⊢
    exact h

theorem pdfdrive_noAG (env : Env) (n : String) :
    noArchiveOrGoogle (Downloader._try_pdfdrive_search env n).2 = true := by
  simp only [Downloader._try_pdfdrive_search]
  split
  · rfl
  · rfl
  · split
    · rfl
    · split
      · rw [extract_trace]
        rfl
      · rename_i x1 anch heq2 x2 hrefv heq1 x3 pdf_url heq
        rw [extract_trace]
        have h1 := dpc_noAG env pdf_url (anch.title.getD n)
        simp [noArchiveOrGoogle, isArchiveSearchCall, isGoogleSearchCall,
          List.all_append] at h1 ⊢
        exact h1

theorem archive_noG (env : Env) (n : String) :
    noGoogle (Downloader._try_archive_search env n).2 = true := by
  simp only [Downloader._try_archive_search]
  split
  · rfl
  · split
    · rfl
    · rename_i x1 docs heq1 x2 ident heq
      have h1 := noGoogle_of_noArchiveOrGoogle _
        (dpc_noAG env ("https://archive.org/download/" ++ ident ++ "/" ++ ident ++ ".pdf") n)
      simp [noGoogle, isGoogleSearchCall] at h1 ⊢
      exact h1

theorem pdfdrive_trace_head (env : Env) (n : String) :
    (Downloader._try_pdfdrive_search env n).2.head? =
      some (Call.pdfdriveSearch (pdfdriveSearchUrl n)) := by
  simp only [Downloader._try_pdfdrive_search]
  split
  · rfl
  · rfl
  · split
    · rfl
    · split <;> rfl

theorem dpc_status (env : Env) (u t : String) :
    (Downloader._download_pdf_and_cover env u t).1.status = "success" ∨
    (Downloader._download_pdf_and_cover env u t).1.status = "error" := by
  simp only [Downloader._download_pdf_and_cover]
  split
  · right; rfl
  · left; rfl

theorem pdfdrive_some_status (env : Env) (n : String) (r : Result)
    (h : (Downloader._try_pdfdrive_search env n).1 = some r) :
    r.status = "success" ∨ r.status = "error" := by
  simp only [Downloader._try_pdfdrive_search] at h
  split at h
  · simp at h
  · simp at h
  · split at h
    · simp at h
    · split at h
      · simp at h
      · simp only [Option.some.injEq] at h
        rw [← h]
        exact dpc_status env _ _

theorem archive_some_status (env : Env) (n : String) (r : Result)
    (h : (Downloader._try_archive_search env n).1 = some r) :
    r.status = "success" ∨ r.status = "error" := by
  simp only [Downloader._try_archive_search] at h
  split at h
  · simp at h
  · split at h
    · simp at h
    · simp only [Option.some.injEq] at h
      rw [← h]
      exact dpc_status env _ _

theorem google_some_status (env : Env) (n : String) (r : Result)
    (h : (Downloader._try_google_pdf_search env n).1 = some r) :
    r.status = "success" ∨ r.status = "error" := by
  simp only [Downloader._try_google_pdf_search] at h
  split at h
  · simp at h
  · split at h
    · simp at h
    · simp only [Option.some.injEq] at h
      rw [← h]
      exact dpc_status env _ _

theorem direct_status (env : Env) (u : String) :
    (Downloader._download_direct_url env u).1.status = "success" ∨
    (Downloader._download_direct_url env u).1.status = "error" := by
  simp only [Downloader._download_direct_url]
  split
  · right; rfl
  · split
    · right; rfl
    · left; rfl

theorem pp_status (env : Env) (s : String) :
    (Downloader._try_past_paper_download env s).1.status = "success" ∨
    (Downloader._try_past_paper_download env s).1.status = "info" := by
  simp only [Downloader._try_past_paper_download]
  split
  · split
    · rename_i hsucc
      exact Or.inl hsucc
    · right; rfl
  · right; rfl

theorem bbn_status (env : Env) (n : String) :
    (Downloader._download_by_book_name env n).1.status = "success" ∨
    (Downloader._download_by_book_name env n).1.status = "error" := by
  simp only [Downloader._download_by_book_name]
  split
  · rename_i r heq
    exact pdfdrive_some_status env (cleanName n) r heq
  · split
    · rename_i r heq
      exact archive_some_status env (cleanName n) r heq
    · split
      · rename_i r heq
        exact google_some_status env (cleanName n) r heq
      · right; rfl

/-- C3: for every URL handed to the direct-URL path whose lowercased
form does not end in ".pdf", `_download_direct_url` returns the error
Result with message "URL doesn't point to a PDF file" and performs no
network call (its call trace is empty). -/
theorem c3_direct_url_non_pdf (env : Env) (url : String)
    (h : strEndsWith (strLower url) ".pdf" = false) :
    Downloader._download_direct_url env url =
      ({ status := "error", message := "URL doesn\x27t point to a PDF file" }, []) := by
  simp [Downloader._download_direct_url, h]

/-- Witness for C3 at the spec example input. -/
theorem c3_direct_url_non_pdf_witness :
    strEndsWith (strLower "https://example.com/book.html") ".pdf" = false ∧
    Downloader._download_direct_url envAllFail "https://example.com/book.html" =
      ({ status := "error", message := "URL doesn\x27t point to a PDF file" }, []) :=
  ⟨by decide, c3_direct_url_non_pdf envAllFail "https://example.com/book.html" (by decide)⟩

/-- C4: for every identifier handled by the past-paper path, if the
MZUNI OPAC lookup yields no downloadable link (it returns no result),
the Result is exactly the informational fallback, whose status is
"info", never "error". -/
theorem c4_past_paper_info (env : Env) (identifier : String)
    (h : (Downloader._try_mzuni_opac_search env identifier
            (Downloader._extract_course_code identifier)
            (Downloader._extract_year identifier)).1 = none) :
    (Downloader._try_past_paper_download env identifier).1 =
      Downloader.pastPaperInfoResult identifier ∧
    (Downloader.pastPaperInfoResult identifier).status = "info" := by
  refine ⟨?_, rfl⟩
  simp [Downloader._try_past_paper_download, h]

/-- Witness for C4 at a concrete past-paper query under the offline
oracle. -/
theorem c4_past_paper_info_witness :
    (Downloader._try_mzuni_opac_search envAllFail "past paper BICT2303 2023"
        (Downloader._extract_course_code "past paper BICT2303 2023")
        (Downloader._extract_year "past paper BICT2303 2023")).1 = none ∧
    (Downloader._try_past_paper_download envAllFail "past paper BICT2303 2023").1 =
      Downloader.pastPaperInfoResult "past paper BICT2303 2023" :=
  ⟨rfl, (c4_past_paper_info envAllFail "past paper BICT2303 2023" rfl).1⟩

/-- C6: for every oracle and every identifier, `download_pdf` returns
a Result (it is a total function of the embedding, so no unhandled
failure reaches the caller) whose status field is one of "success",
"error", "info". -/
theorem c6_download_pdf_status (env : Env) (identifier : String) :
    (Downloader.download_pdf env identifier).1.status = "success" ∨
    (Downloader.download_pdf env identifier).1.status = "error" ∨
    (Downloader.download_pdf env identifier).1.status = "info" := by
  simp only [Downloader.download_pdf]
  split
  · rcases direct_status env (strTrim identifier) with h | h
    · exact Or.inl h
    · exact Or.inr (Or.inl h)
  · split
    · rcases pp_status env (strTrim identifier) with h | h
      · exact Or.inl h
      · exact Or.inr (Or.inr h)
    · rcases bbn_status env (strTrim identifier) with h | h
      · exact Or.inl h
      · exact Or.inr (Or.inl h)

/-- C7: when all three lookup strategies yield no result, the
book-name resolution returns the error Result whose alternatives are
the PDFDrive and Archive.org search pages built from the cleaned name
with spaces replaced by plus signs. -/
theorem c7_all_fail_alternatives (env : Env) (book_name : String)
    (h1 : (Downloader._try_pdfdrive_search env (cleanName book_name)).1 = none)
    (h2 : (Downloader._try_archive_search env (cleanName book_name)).1 = none)
    (h3 : (Downloader._try_google_pdf_search env (cleanName book_name)).1 = none) :
    (Downloader._download_by_book_name env book_name).1 =
      { status := "error",
        message := "Could not find PDF for \x27" ++ cleanName book_name ++ "\x27",
        alternatives :=
          ["https://www.pdfdrive.com/search?q=" ++ plusJoin (cleanName book_name),
           "https://archive.org/search.php?query=" ++ plusJoin (cleanName book_name)] } := by
  simp [Downloader._download_by_book_name, h1, h2, h3]

/-- Witness for C7: under the offline oracle every strategy yields no
result and the terminal error Result carries the two fallback URLs. -/
theorem c7_all_fail_alternatives_witness :
    (Downloader._try_pdfdrive_search envAllFail (cleanName "Atomic Habits")).1 = none ∧
    (Downloader._try_archive_search envAllFail (cleanName "Atomic Habits")).1 = none ∧
    (Downloader._try_google_pdf_search envAllFail (cleanName "Atomic Habits")).1 = none ∧
    (Downloader._download_by_book_name envAllFail "Atomic Habits").1 =
      { status := "error",
        message := "Could not find PDF for \x27Atomic Habits\x27",
        alternatives :=
          ["https://www.pdfdrive.com/search?q=Atomic+Habits",
           "https://archive.org/search.php?query=Atomic+Habits"] } := by
  refine ⟨rfl, rfl, rfl, ?_⟩
  exact (c7_all_fail_alternatives envAllFail "Atomic Habits" rfl rfl rfl).trans (by decide)

/-- C9: every identifier whose trimmed, lowercased form starts with
"http" is routed to the direct-URL path, so if it does not also end
in ".pdf" the whole resolution returns the non-PDF error Result with
an empty call trace: no search strategy is attempted. -/
theorem c9_http_routing (env : Env) (identifier : String)
    (h1 : strStartsWith (strLower (strTrim identifier)) "http" = true)
    (h2 : strEndsWith (strLower (strTrim identifier)) ".pdf" = false) :
    Downloader.download_pdf env identifier =
      ({ status := "error", message := "URL doesn\x27t point to a PDF file" }, []) := by
  simp [Downloader.download_pdf, Downloader._download_direct_url, h1, h2]

/-- Witness for C9 at the non-URL free text "httpd tutorial". -/
theorem c9_http_routing_witness :
    strStartsWith (strLower (strTrim "httpd tutorial")) "http" = true ∧
    strEndsWith (strLower (strTrim "httpd tutorial")) ".pdf" = false ∧
    Downloader.download_pdf envAllFail "httpd tutorial" =
      ({ status := "error", message := "URL doesn\x27t point to a PDF file" }, []) :=
  ⟨by decide, by decide, c9_http_routing envAllFail "httpd tutorial" (by decide) (by decide)⟩

/-- C2: the fallback chain of the book-name resolution is invariant:
the call trace always begins with the PDFDrive search; if PDFDrive
yields a result the chain returns it with a trace containing no
archive and no google search; if PDFDrive yields none and Archive.org
yields a result the chain returns it with a trace containing no
google search; and only when both yield none and Google yields a
result is that returned. -/
theorem c2_chain_order (env : Env) (book_name : String) :
    ((Downloader._try_pdfdrive_search env (cleanName book_name)).2.head? =
        some (Call.pdfdriveSearch (pdfdriveSearchUrl (cleanName book_name)))) ∧
    (∀ r, (Downloader._try_pdfdrive_search env (cleanName book_name)).1 = some r →
        Downloader._download_by_book_name env book_name =
          (r, (Downloader._try_pdfdrive_search env (cleanName book_name)).2) ∧
        noArchiveOrGoogle (Downloader._try_pdfdrive_search env (cleanName book_name)).2 = true) ∧
    ((Downloader._try_pdfdrive_search env (cleanName book_name)).1 = none →
      ∀ r, (Downloader._try_archive_search env (cleanName book_name)).1 = some r →
        Downloader._download_by_book_name env book_name =
          (r, (Downloader._try_pdfdrive_search env (cleanName book_name)).2 ++
              (Downloader._try_archive_search env (cleanName book_name)).2) ∧
        noGoogle ((Downloader._try_pdfdrive_search env (cleanName book_name)).2 ++
                  (Downloader._try_archive_search env (cleanName book_name)).2) = true) ∧
    ((Downloader._try_pdfdrive_search env (cleanName book_name)).1 = none →
      (Downloader._try_archive_search env (cleanName book_name)).1 = none →
      ∀ r, (Downloader._try_google_pdf_search env (cleanName book_name)).1 = some r →
        Downloader._download_by_book_name env book_name =
          (r, (Downloader._try_pdfdrive_search env (cleanName book_name)).2 ++
              (Downloader._try_archive_search env (cleanName book_name)).2 ++
              (Downloader._try_google_pdf_search env (cleanName book_name)).2)) := by
  refine ⟨pdfdrive_trace_head env (cleanName book_name), ?_, ?_, ?_⟩
  · intro r h
    refine ⟨?_, pdfdrive_noAG env (cleanName book_name)⟩
    simp [Downloader._download_by_book_name, h]
  · intro h1 r h2
    constructor
    · simp [Downloader._download_by_book_name, h1, h2]
    · rw [noGoogle_append]
      rw [noGoogle_of_noArchiveOrGoogle _ (pdfdrive_noAG env (cleanName book_name))]
      rw [archive_noG env (cleanName book_name)]
      rfl
  · intro h1 h2 r h3
    simp [Downloader._download_by_book_name, h1, h2, h3]

/-- Witness for C2: under the oracle where PDFDrive resolves but the
download raises, the chain returns stage one's Result and neither the
archive search nor the google search appears in the trace. -/
theorem c2_chain_order_witness :
    (Downloader._try_pdfdrive_search envDlFail (cleanName "Some Book")).1 =
      some { status := "error", message := "boom" } ∧
    Downloader._download_by_book_name envDlFail "Some Book" =
      ({ status := "error", message := "boom" },
       (Downloader._try_pdfdrive_search envDlFail (cleanName "Some Book")).2) ∧
    noArchiveOrGoogle (Downloader._try_pdfdrive_search envDlFail (cleanName "Some Book")).2 = true := by
  have h := ((c2_chain_order envDlFail "Some Book").2.1
    { status := "error", message := "boom" } (by decide))
  exact ⟨by decide, h.1, h.2⟩

/-- C5 counterexample: an oracle where the PDFDrive stage's search
succeeds but its PDF download call raises. The strategy then returns
an error Result instead of the no-result value, and the chain stops:
no archive or google search is ever made, refuting both "every
failure of its external calls returns None" and "a failure in one
stage never prevents the next stage from being attempted". -/
theorem c5_strategy_counterexample :
    envDlFail.get_download "http://x/f.pdf" = Except.error "boom" ∧
    (Downloader._try_pdfdrive_search envDlFail "Some Book").1 ≠ none ∧
    (Downloader._download_by_book_name envDlFail "Some Book").1.status = "error" ∧
    (Downloader._download_by_book_name envDlFail "Some Book").1.message = "boom" ∧
    noArchiveOrGoogle (Downloader._download_by_book_name envDlFail "Some Book").2 = true :=
  ⟨rfl, by decide, by decide, by decide, by decide⟩

/-- C5 amended: each strategy function is total (never propagates an
exception) and swallows the failures of its own search and lookup
calls — a raised search request, a missing search hit, a missing
href, a raised or empty preview extraction, no doc with an
identifier, no .pdf hit — returning the no-result value so the next
stage can run; but when a stage has resolved a PDF URL and the
download call raises, the stage returns an error Result rather than
the no-result value. -/
theorem c5_strategies_swallow (env : Env) (name : String) :
    (∀ ex, env.get_pdfdrive_search (pdfdriveSearchUrl name) = .error ex →
      (Downloader._try_pdfdrive_search env name).1 = none) ∧
    (env.get_pdfdrive_search (pdfdriveSearchUrl name) = .ok none →
      (Downloader._try_pdfdrive_search env name).1 = none) ∧
    (∀ a, env.get_pdfdrive_search (pdfdriveSearchUrl name) = .ok (some a) → a.href = none →
      (Downloader._try_pdfdrive_search env name).1 = none) ∧
    (∀ a hr ex,
      env.get_pdfdrive_search (pdfdriveSearchUrl name) = .ok (some a) →
      a.href = some hr →
      env.get_pdfdrive_book ("https://www.pdfdrive.com" ++ hr) = .error ex →
      (Downloader._try_pdfdrive_search env name).1 = none) ∧
    (∀ a hr,
      env.get_pdfdrive_search (pdfdriveSearchUrl name) = .ok (some a) →
      a.href = some hr →
      env.get_pdfdrive_book ("https://www.pdfdrive.com" ++ hr) = .ok none →
      (Downloader._try_pdfdrive_search env name).1 = none) ∧
    (∀ ex, env.get_archive (archiveSearchUrl name) = .error ex →
      (Downloader._try_archive_search env name).1 = none) ∧
    (∀ docs, env.get_archive (archiveSearchUrl name) = .ok docs → firstIdentifier docs = none →
      (Downloader._try_archive_search env name).1 = none) ∧
    (∀ ex, env.get_google (googleQuery name) = .error ex →
      (Downloader._try_google_pdf_search env name).1 = none) ∧
    (∀ urls, env.get_google (googleQuery name) = .ok urls → firstPdfUrl urls = none →
      (Downloader._try_google_pdf_search env name).1 = none) ∧
    (∀ a hr pdf_url ex,
      env.get_pdfdrive_search (pdfdriveSearchUrl name) = .ok (some a) →
      a.href = some hr →
      (Downloader._extract_pdfdrive_pdf env ("https://www.pdfdrive.com" ++ hr)).1 = some pdf_url →
      env.get_download pdf_url = .error ex →
      (Downloader._try_pdfdrive_search env name).1 =
        some { status := "error", message := ex }) := by
  refine ⟨?_, ?_, ?_, ?_, ?_, ?_, ?_, ?_, ?_, ?_⟩
  · intro ex h
    simp [Downloader._try_pdfdrive_search, h]
  · intro h
    simp [Downloader._try_pdfdrive_search, h]
  · intro a h1 h2
    simp [Downloader._try_pdfdrive_search, h1, h2]
  · intro a hr ex h1 h2 h3
    simp [Downloader._try_pdfdrive_search, Downloader._extract_pdfdrive_pdf, h1, h2, h3]
  · intro a hr h1 h2 h3
    simp [Downloader._try_pdfdrive_search, Downloader._extract_pdfdrive_pdf, h1, h2, h3]
  · intro ex h
    simp [Downloader._try_archive_search, h]
  · intro docs h1 h2
    simp [Downloader._try_archive_search, h1, h2]
  · intro ex h
    simp [Downloader._try_google_pdf_search, h]
  · intro urls h1 h2
    simp [Downloader._try_google_pdf_search, h1, h2]
  · intro a hr pdf_url ex h1 h2 h3 h4
    simp [Downloader._try_pdfdrive_search, Downloader._download_pdf_and_cover,
      h1, h2, h3, h4]

/-- Witness for C5 amended, exercising the download-failure clause at
the concrete oracle of the counterexample. -/
theorem c5_strategies_swallow_witness :
    envDlFail.get_download "http://x/f.pdf" = Except.error "boom" ∧
    (Downloader._try_pdfdrive_search envDlFail "Some Book").1 =
      some { status := "error", message := "boom" } :=
  ⟨rfl,
   (c5_strategies_swallow envDlFail "Some Book").2.2.2.2.2.2.2.2.2
     { href := some "/b", title := some "T" } "/b" "http://x/f.pdf" "boom"
     rfl rfl rfl rfl⟩

/-- C1 counterexample: two distinct identifiers whose Results are
identical and carry no tag of their originating identifier (the
`book` key, the only place the source ever records the identifier in
a Result, is absent), so the Results of a batch are not each tagged
to their originating identifier. -/
theorem c1_batch_counterexample :
    Downloader.handle_multiple_downloads envOkDirect
        ["https://a.com/book.pdf", "https://b.com/book.pdf"] = [rDirect, rDirect] ∧
    rDirect.book = none :=
  ⟨by decide, rfl⟩

/-- C1 amended: batch dispatch over N identifiers yields exactly N
Results in completion order (any permutation of the submitted list),
and the Results are, as a multiset, exactly the per-identifier
resolutions of the submitted identifiers. -/
theorem c1_batch_count (env : Env) (books completed : List String)
    (h : completed.Perm books) :
    (Downloader.handle_multiple_downloads env completed).length = books.length ∧
    (Downloader.handle_multiple_downloads env completed).Perm (resultsFor env books) := by
  constructor
  · simpa [Downloader.handle_multiple_downloads] using h.length_eq
  · exact h.map (fun b => (Downloader.download_pdf env b).1)

/-- Witness for C1 amended on a two-element batch completing in
reversed order. -/
theorem c1_batch_count_witness :
    List.Perm ["b", "a"] ["a", "b"] ∧
    (Downloader.handle_multiple_downloads envAllFail ["b", "a"]).length = 2 ∧
    (Downloader.handle_multiple_downloads envAllFail ["b", "a"]).Perm
      (resultsFor envAllFail ["a", "b"]) := by
  have h := c1_batch_count envAllFail ["a", "b"] ["b", "a"] (by decide)
  exact ⟨by decide, h.1, h.2⟩

/-- C8: in every pool state reachable while dispatching a batch, at
most `MAX_CONCURRENT_DOWNLOADS` (ten) resolution units are running
simultaneously. -/
theorem c8_concurrency_cap (env : Env) (books : List String) (s : PoolState)
    (h : PoolReachable env MAX_CONCURRENT_DOWNLOADS books s) :
    s.running.length ≤ MAX_CONCURRENT_DOWNLOADS := by
  induction h with
  | refl => exact Nat.zero_le _
  | tail _ step ih =>
    cases step with
    | start b pending running done hlt => exact hlt
    | finish b pending running done hmem =>
      exact le_trans (List.Sublist.length_le (List.erase_sublist b running)) ih

/-- Witness for C8: the state after starting the single unit of a
one-element batch is reachable and respects the cap. -/
theorem c8_concurrency_cap_witness :
    PoolReachable envAllFail MAX_CONCURRENT_DOWNLOADS ["a"] ⟨[], ["a"], []⟩ ∧
    (PoolState.mk [] ["a"] []).running.length ≤ MAX_CONCURRENT_DOWNLOADS := by
  have hr : PoolReachable envAllFail MAX_CONCURRENT_DOWNLOADS ["a"] ⟨[], ["a"], []⟩ :=
    Relation.ReflTransGen.single (PoolStep.start "a" [] [] [] (by decide))
  exact ⟨hr, c8_concurrency_cap envAllFail ["a"] ⟨[], ["a"], []⟩ hr⟩

/-- C10: the book-name fallback chain and its three strategy
functions are extensionally equal across the three source files: on
every oracle and every book name, the embeddings from Downloader.py,
Pdf.py and Example.py produce the same Result and the same trace. -/
theorem c10_chain_equal_across_files (env : Env) (book_name : String) :
    Downloader._download_by_book_name env book_name = Pdf._download_by_book_name env book_name ∧
    Downloader._download_by_book_name env book_name = Example._download_by_book_name env book_name ∧
    Downloader._try_pdfdrive_search env book_name = Pdf._try_pdfdrive_search env book_name ∧
    Downloader._try_pdfdrive_search env book_name = Example._try_pdfdrive_search env book_name ∧
    Downloader._try_archive_search env book_name = Pdf._try_archive_search env book_name ∧
    Downloader._try_archive_search env book_name = Example._try_archive_search env book_name ∧
    Downloader._try_google_pdf_search env book_name = Pdf._try_google_pdf_search env book_name ∧
    Downloader._try_google_pdf_search env book_name = Example._try_google_pdf_search env book_name :=
  ⟨rfl, rfl, rfl, rfl, rfl, rfl, rfl, rfl⟩
